import Mathlib

/-
Shallow embedding of the WhatsApp notification microservice's message
lifecycle pipeline (Go sources under internal/ and pkg/), covering:

  - the Message record and the repository operations over the messages
    table (internal/repository message_repository.go: CreateMessage,
    GetMessageByID, GetMessageByExternalID, UpdateMessageStatus);
  - the webhook/reconciliation service (internal/service/webhook_service.go:
    mapMetaStatus, ProcessWebhook, UpdateMessageStatus);
  - the message service (internal/service/message_service.go:
    SendTemplateMessage, ProcessQueueMessage, sendMessage);
  - the phone-number helpers (pkg/utils/helpers.go: HasWhatsAppPrefix,
    IsValidPhoneNumber).

The database is modelled as the list of rows of the messages table and a
next-id counter; time.Now() is a logical clock passed explicitly as a Nat;
the Kafka producer is modelled by an oracle deciding whether each Produce
call succeeds, and a list accumulating the produced payloads; SQL-driver /
network failures of the repository itself are outside the pure model (every
repository call that the Go code would issue is executed against the pure
table). json.Marshal of the queue snapshot is modelled by an oracle because
the Go payload type (map keyed by string with interface values) can hold
unserialisable values; json.Unmarshal of incoming payloads is modelled by
passing the parse result (an Option of the structured payload) directly.
-/

namespace WhatsApp

/-- Parameter values substituted into a template: the Go code stores them as
a map keyed by string with values of dynamic type (string, number or bool
per the specification's data model). -/
inductive ParamValue where
  | str : String → ParamValue
  | num : Int → ParamValue
  | flag : Bool → ParamValue
deriving DecidableEq

/-- Template parameters, the Go map rendered as an association list. -/
abbrev Params := List (String × ParamValue)

/-- One row of the messages table (repository MessageModel / Message):
id, phone_number, template_id, parameters, order_id, customer_id, status,
error_message, external_id, created_at, updated_at. Nullable text columns
round-trip with the empty string exactly as the Go model conversion does
(a NULL column reads back as the zero string and an empty field is stored
as NULL). Timestamps are logical Nat instants; int64 ids assigned by the
database sequence are represented as Nat. -/
structure MessageRec where
  id : Nat
  phoneNumber : String
  templateId : String
  parameters : Params
  orderId : String
  customerId : String
  status : String
  errorMessage : String
  externalId : String
  createdAt : Nat
  updatedAt : Nat
deriving DecidableEq

/-- One SET clause of the dynamically built UPDATE statement of
UpdateMessageStatus. -/
inductive ColumnAssign where
  | setStatus : String → ColumnAssign
  | setUpdatedAt : Nat → ColumnAssign
  | setErrorMessage : String → ColumnAssign
  | setExternalId : String → ColumnAssign
deriving DecidableEq

/-- Effect of one SET clause on a row. -/
def applyAssign (r : MessageRec) : ColumnAssign → MessageRec
  | ColumnAssign.setStatus s => { r with status := s }
  | ColumnAssign.setUpdatedAt t => { r with updatedAt := t }
  | ColumnAssign.setErrorMessage m => { r with errorMessage := m }
  | ColumnAssign.setExternalId e => { r with externalId := e }

/-- The SET clauses UpdateMessageStatus builds: status and updated_at
always; error_message only when the errorMessage argument is non-empty;
external_id only when the externalID argument is non-empty (mirrors the
string concatenation building the UPDATE query). -/
def updateAssigns (now : Nat) (status errorMessage externalID : String) :
    List ColumnAssign :=
  [ColumnAssign.setStatus status, ColumnAssign.setUpdatedAt now]
    ++ (if errorMessage ≠ "" then [ColumnAssign.setErrorMessage errorMessage] else [])
    ++ (if externalID ≠ "" then [ColumnAssign.setExternalId externalID] else [])

/-- Repository UpdateMessageStatus: executes the built UPDATE against every
row whose id matches the WHERE clause (an UPDATE touching zero rows is not
an error, matching the Go code, which only surfaces driver errors). -/
def updateMessageStatus (db : List MessageRec) (now : Nat) (id : Nat)
    (status errorMessage externalID : String) : List MessageRec :=
  db.map (fun r =>
    if r.id = id then (updateAssigns now status errorMessage externalID).foldl applyAssign r
    else r)

/-- Repository GetMessageByID: SELECT ... WHERE id = $1 (first matching
row, none means the message-not-found error). -/
def getMessageByID (db : List MessageRec) (id : Nat) : Option MessageRec :=
  db.find? (fun r => r.id = id)

/-- Repository GetMessageByExternalID: SELECT ... WHERE external_id = $1
(first matching row, none means the message-not-found error). -/
def getMessageByExternalID (db : List MessageRec) (externalID : String) :
    Option MessageRec :=
  db.find? (fun r => r.externalId = externalID)

/-- The messages table plus the id sequence feeding RETURNING id. -/
structure RepoState where
  rows : List MessageRec
  nextId : Nat
deriving DecidableEq

/-- Repository CreateMessage: INSERT the record, the database assigns the
id from the sequence and RETURNING id hands it back. -/
def createMessage (st : RepoState) (msg : MessageRec) : RepoState × Nat :=
  (⟨st.rows ++ [{ msg with id := st.nextId }], st.nextId + 1⟩, st.nextId)

/-- Closed form of the fold over the built SET clauses: status and
updated_at are always written, error_message and external_id only when the
corresponding argument is non-empty, every other column untouched. -/
theorem applyAssigns_eq (r : MessageRec) (now : Nat) (s em ext : String) :
    (updateAssigns now s em ext).foldl applyAssign r
      = { r with status := s, updatedAt := now,
                 errorMessage := if em = "" then r.errorMessage else em,
                 externalId := if ext = "" then r.externalId else ext } := by
  by_cases hem : em = "" <;> by_cases hext : ext = "" <;>
    simp [updateAssigns, hem, hext, applyAssign]

/-- Error entry of one status object of a Meta webhook payload. -/
structure MetaWebhookError where
  code : Int
  title : String
  message : String
deriving DecidableEq

/-- One status object of a Meta webhook payload (entry.changes.value.statuses
element): id, recipient_id, status, timestamp, errors. -/
structure MetaStatusEntry where
  id : String
  recipientId : String
  status : String
  timestamp : String
  errors : List MetaWebhookError
deriving DecidableEq

/-- The value object of one change of a Meta webhook payload. -/
structure MetaChangeValue where
  messagingProduct : String
  statuses : List MetaStatusEntry
deriving DecidableEq

/-- One change of one entry of a Meta webhook payload. -/
structure MetaChange where
  value : MetaChangeValue
deriving DecidableEq

/-- One entry of a Meta webhook payload. -/
structure MetaEntry where
  id : String
  changes : List MetaChange
deriving DecidableEq

/-- Root structure of a Meta webhook payload. -/
structure MetaWebhookPayload where
  object : String
  entry : List MetaEntry
deriving DecidableEq

/-- Parsed webhook event (the structure the service marshals onto the
reconciliation queue): external_id, status, error_code, error_message,
phone_number. The Go code never fills ErrorCode, so it stays empty. -/
structure WebhookEvent where
  externalId : String
  status : String
  errorCode : String
  errorMessage : String
  phoneNumber : String
deriving DecidableEq

/-- mapMetaStatus of webhook_service.go: maps the provider status token to
the internal status vocabulary, with an unknown fallback. -/
def mapMetaStatus (metaStatus : String) : String :=
  if metaStatus = "sent" then "sent"
  else if metaStatus = "delivered" then "delivered"
  else if metaStatus = "read" then "read"
  else if metaStatus = "failed" then "failed"
  else "unknown"

/-- Webhook-service UpdateMessageStatus: requires a non-empty external id,
looks the record up by external id, then issues the repository update with
the given status, errorMessage and the same external id. -/
def webhookUpdateMessageStatus (db : List MessageRec) (now : Nat)
    (externalID status errorMessage : String) : Except String (List MessageRec) :=
  if externalID = "" then Except.error "external ID is required"
  else
    match getMessageByExternalID db externalID with
    | none => Except.error "message not found"
    | some msg => Except.ok (updateMessageStatus db now msg.id status errorMessage externalID)

/-- State touched by webhook processing: the messages table and the list of
events produced onto the reconciliation queue. -/
structure WebhookState where
  db : List MessageRec
  produced : List WebhookEvent
deriving DecidableEq

/-- Body of the innermost loop of ProcessWebhook, for one status object:
map the provider token, take the first error's message, build the event,
produce it onto the queue (skipping the rest of the iteration when the
producer fails, as the Go code continues the loop), then apply the direct
update for immediate feedback, ignoring its error. -/
def processStatusEntry (produceOk : WebhookEvent → Bool) (now : Nat)
    (st : WebhookState) (entry : MetaStatusEntry) : WebhookState :=
  let mappedStatus := mapMetaStatus entry.status
  let errorMessage := match entry.errors with
    | [] => ""
    | e :: _ => e.message
  let event : WebhookEvent := ⟨entry.id, mappedStatus, "", errorMessage, entry.recipientId⟩
  if produceOk event then
    let st1 : WebhookState := ⟨st.db, st.produced ++ [event]⟩
    match webhookUpdateMessageStatus st1.db now event.externalId event.status event.errorMessage with
    | Except.ok db2 => ⟨db2, st1.produced⟩
    | Except.error _ => st1
  else st

/-- ProcessWebhook of webhook_service.go: rejects an empty signature (the
only signature check present), then works on the parse result of the body
(none models a json.Unmarshal failure), ignores payloads for objects other
than whatsapp_business_account, and otherwise runs the triple loop over
entry/changes/statuses. -/
def processWebhook (produceOk : WebhookEvent → Bool) (now : Nat)
    (st : WebhookState) (signature : String) (body : Option MetaWebhookPayload) :
    Except String WebhookState :=
  if signature = "" then Except.error "missing webhook signature"
  else
    match body with
    | none => Except.error "failed to unmarshal webhook payload"
    | some payload =>
      if payload.object ≠ "whatsapp_business_account" then Except.ok st
      else
        Except.ok (payload.entry.foldl (fun acc e =>
          e.changes.foldl (fun acc2 c =>
            c.value.statuses.foldl (processStatusEntry produceOk now) acc2) acc) st)

/-- Embedding of utils.HasWhatsAppPrefix (pkg/utils/helpers.go): whether the
phone number already starts with the whatsapp scheme marker. -/
def hasWhatsAppMarker (phoneNumber : String) : Bool :=
  "whatsapp:".toList.isPrefixOf phoneNumber.toList

/-- IsValidPhoneNumber of pkg/utils/helpers.go: strip the whatsapp scheme
marker (nine characters) when present, drop every non-digit character, and
require at least ten digits. (The Go submission path never calls this
helper.) -/
def IsValidPhoneNumber (phoneNumber : String) : Bool :=
  let normalizedNumber :=
    if hasWhatsAppMarker phoneNumber then phoneNumber.toList.drop 9
    else phoneNumber.toList
  let digitsOnly := normalizedNumber.filter
    (fun c => decide ('0' ≤ c) && decide (c ≤ '9'))
  decide (digitsOnly.length ≥ 10)

/-- QueueMessage of message_service.go: the denormalized snapshot enqueued
for asynchronous delivery. -/
structure QueueMessage where
  messageId : Nat
  phoneNumber : String
  templateId : String
  parameters : Params
  orderId : String
  customerId : String
deriving DecidableEq

/-- State touched by the message service: the repository and the queue of
produced delivery-job snapshots. -/
structure MsgServiceState where
  repo : RepoState
  queued : List QueueMessage
deriving DecidableEq

/-- Oracles for the two fallible steps between persisting and returning:
whether json.Marshal of the snapshot succeeds (the dynamic parameter values
can be unserialisable) and whether producer.Produce succeeds (none) or
fails with a broker error message (some err). -/
structure SendOracle where
  marshalOk : QueueMessage → Bool
  produceErr : QueueMessage → Option String

/-- SendTemplateMessage of message_service.go on the asynchronous path the
constructor selects (isAsync is true): prepend the whatsapp scheme marker
when absent (the only recipient normalization performed), persist the
record with status queued, build and marshal the snapshot (on marshal
failure the error is only logged and the queued message is returned with no
error), produce it (on produce failure the record is updated to failed with
the broker error appended to a fixed text, and the broker error is
returned). -/
def sendTemplateMessage (oracle : SendOracle) (now : Nat)
    (st : MsgServiceState) (phoneNumber templateID : String)
    (parameters : Params) (orderID customerID : String) :
    MsgServiceState × Except String MessageRec :=
  let phone := if hasWhatsAppMarker phoneNumber then phoneNumber
               else "whatsapp:" ++ phoneNumber
  let msg : MessageRec :=
    ⟨0, phone, templateID, parameters, orderID, customerID, "queued", "", "", now, now⟩
  let created := createMessage st.repo msg
  let repo1 := created.1
  let msg1 := { msg with id := created.2 }
  let queueMsg : QueueMessage :=
    ⟨msg1.id, msg1.phoneNumber, msg1.templateId, msg1.parameters, msg1.orderId, msg1.customerId⟩
  if oracle.marshalOk queueMsg then
    match oracle.produceErr queueMsg with
    | some err =>
      let rows2 := updateMessageStatus repo1.rows now msg1.id "failed"
        ("Failed to queue message: " ++ err) ""
      (⟨⟨rows2, repo1.nextId⟩, st.queued⟩, Except.error err)
    | none => (⟨repo1, st.queued ++ [queueMsg]⟩, Except.ok msg1)
  else (⟨repo1, st.queued⟩, Except.ok msg1)

/-- The delivery gateway (twilio client SendTemplateMessage): from the
recipient, template id and parameters it returns the provider-assigned SID
or an error. -/
abbrev Gateway := String → String → Params → Except String String

/-- sendMessage of message_service.go: update the record to processing,
invoke the gateway with the record's own recipient, template id and
parameters, then update to failed with the gateway error (returning it) or
to sent with the returned SID as external id (returning no error). The two
updates happen at successive logical instants. -/
def sendMessage (gateway : Gateway) (now1 now2 : Nat) (db : List MessageRec)
    (msg : MessageRec) : List MessageRec × Option String :=
  let db1 := updateMessageStatus db now1 msg.id "processing" "" ""
  match gateway msg.phoneNumber msg.templateId msg.parameters with
  | Except.error e => (updateMessageStatus db1 now2 msg.id "failed" e "", some e)
  | Except.ok sid => (updateMessageStatus db1 now2 msg.id "sent" "" sid, none)

/-- ProcessQueueMessage of message_service.go: decode the payload (none
models a json.Unmarshal failure), reload the authoritative record by the
snapshot's message id, and drive sendMessage on the reloaded record. The
returned Option String is the error handed back to the consumer loop. -/
def processQueueMessage (gateway : Gateway) (now1 now2 : Nat)
    (db : List MessageRec) (payload : Option QueueMessage) :
    List MessageRec × Option String :=
  match payload with
  | none => (db, some "failed to unmarshal queue message")
  | some queueMsg =>
    match getMessageByID db queueMsg.messageId with
    | none => (db, some "message not found")
    | some msg => sendMessage gateway now1 now2 db msg

/-- Effect on the table of one reconciliation event (externalId, status,
errorMessage) pushed through the webhook-service update path, with the
returned error ignored, exactly as ProcessWebhook ignores it: on error the
table is unchanged. -/
def applyStatusEvent (now : Nat) (externalID status errorMessage : String)
    (db : List MessageRec) : List MessageRec :=
  match webhookUpdateMessageStatus db now externalID status errorMessage with
  | Except.ok db2 => db2
  | Except.error _ => db

/-- The QueueJob snapshot SendTemplateMessage builds for a given input in a
given state: message id from the sequence, the normalized recipient, and
the template id, parameters and correlation ids as submitted. -/
def submissionSnapshot (st : MsgServiceState) (phoneNumber templateID : String)
    (parameters : Params) (orderID customerID : String) : QueueMessage :=
  ⟨st.repo.nextId,
   (if hasWhatsAppMarker phoneNumber then phoneNumber else "whatsapp:" ++ phoneNumber),
   templateID, parameters, orderID, customerID⟩

/-- C6: a repository UpdateMessageStatus call with an empty errorMessage
argument leaves the error_message column of every touched row unchanged,
and an empty externalID argument likewise leaves external_id unchanged;
status and updated_at are the only columns written on every call, and no
other column is ever written. -/
theorem updateMessageStatus_frame (db : List MessageRec) (now : Nat)
    (id : Nat) (status errorMessage externalID : String) :
    updateMessageStatus db now id status errorMessage externalID
      = db.map (fun r =>
          if r.id = id then
            { r with status := status, updatedAt := now,
                     errorMessage := if errorMessage = "" then r.errorMessage else errorMessage,
                     externalId := if externalID = "" then r.externalId else externalID }
          else r) := by
  simp only [updateMessageStatus, applyAssigns_eq]

/-- Looking a row up by id after an UPDATE keyed on that same id sees the
updated row (and a missing row stays missing). -/
theorem getMessageByID_update (db : List MessageRec) (now : Nat) (i : Nat)
    (s em ext : String) :
    getMessageByID (updateMessageStatus db now i s em ext) i
      = (getMessageByID db i).map (fun r =>
          { r with status := s, updatedAt := now,
                   errorMessage := if em = "" then r.errorMessage else em,
                   externalId := if ext = "" then r.externalId else ext }) := by
  induction db with
  | nil => rfl
  | cons hd tl ih =>
    simp only [updateMessageStatus, List.map_cons, getMessageByID] at *
    by_cases hid : hd.id = i
    · rw [if_pos hid]
      rw [List.find?_cons_of_pos, List.find?_cons_of_pos]
      · simp [applyAssigns_eq]
      · simp [hid]
      · simp [applyAssigns_eq, hid]
    · rw [if_neg hid]
      rw [List.find?_cons_of_neg, List.find?_cons_of_neg]
      · exact ih
      · simp [hid]
      · simp [hid]

/-- After the webhook-path update (keyed by a non-empty external id through
the row found by that external id), looking up by the same external id
still finds a row, that row carries the same id as the row found before the
update, and it shows the freshly written status, external id and update
instant. -/
theorem find?_ext_update (db : List MessageRec) (now : Nat) (e s em : String)
    (he : e ≠ "") (msg : MessageRec)
    (h : db.find? (fun r => r.externalId = e) = some msg) :
    ∃ msg2, (updateMessageStatus db now msg.id s em e).find? (fun r => r.externalId = e) = some msg2
      ∧ msg2.id = msg.id ∧ msg2.status = s ∧ msg2.externalId = e ∧ msg2.updatedAt = now := by
  induction db with
  | nil => simp at h
  | cons hd tl ih =>
    by_cases hext : hd.externalId = e
    · rw [List.find?_cons_of_pos] at h
      · have hmsg : hd = msg := by simpa using h
        refine ⟨(updateAssigns now s em e).foldl applyAssign hd, ?_, ?_⟩
        · simp only [updateMessageStatus, List.map_cons]
          rw [if_pos (by rw [hmsg])]
          rw [List.find?_cons_of_pos]
          simp [applyAssigns_eq, he]
        · simp [applyAssigns_eq, he, hmsg]
      · simp [hext]
    · rw [List.find?_cons_of_neg] at h
      · by_cases hid : hd.id = msg.id
        · refine ⟨(updateAssigns now s em e).foldl applyAssign hd, ?_, ?_⟩
          · simp only [updateMessageStatus, List.map_cons]
            rw [if_pos hid]
            rw [List.find?_cons_of_pos]
            simp [applyAssigns_eq, he]
          · simp [applyAssigns_eq, he, hid]
        · obtain ⟨msg2, h2, hprops⟩ := ih h
          refine ⟨msg2, ?_, hprops⟩
          simp only [updateMessageStatus, List.map_cons] at h2 ⊢
          rw [if_neg hid]
          rw [List.find?_cons_of_neg]
          · exact h2
          · simp [hext]
      · simp [hext]

/-- Re-issuing the same UPDATE (same key, same arguments) at a second
instant collapses to a single UPDATE at that second instant: the duplicate
changes nothing beyond what the later timestamp writes. -/
theorem updateMessageStatus_reissue (db : List MessageRec) (t1 t2 : Nat)
    (i : Nat) (s em ext : String) :
    updateMessageStatus (updateMessageStatus db t1 i s em ext) t2 i s em ext
      = updateMessageStatus db t2 i s em ext := by
  simp only [updateMessageStatus, List.map_map]
  apply List.map_congr_left
  intro r _
  simp only [Function.comp_apply]
  by_cases hid : r.id = i
  · rw [if_pos hid]
    rw [if_pos (by simp [applyAssigns_eq, hid])]
    by_cases hem : em = "" <;> by_cases hext : ext = "" <;>
      simp [applyAssigns_eq, hem, hext, hid]
  · simp [hid]

/-- C8 counterexample: reconciliation is not idempotent on the full record
state: a duplicate of an already-applied event, arriving at a later
instant, rewrites updated_at (the guardless UPDATE always sets it), so the
table after applying the same event twice differs from the table after
applying it once. -/
theorem applyStatusEvent_not_idempotent :
    applyStatusEvent 2 "wamid.X" "delivered" ""
        (applyStatusEvent 1 "wamid.X" "delivered" ""
          [⟨1, "whatsapp:+15551234567", "order_confirmation", [], "", "", "sent", "", "wamid.X", 0, 0⟩])
      ≠ applyStatusEvent 1 "wamid.X" "delivered" ""
          [⟨1, "whatsapp:+15551234567", "order_confirmation", [], "", "", "sent", "", "wamid.X", 0, 0⟩]
    ∧ (applyStatusEvent 2 "wamid.X" "delivered" ""
        (applyStatusEvent 1 "wamid.X" "delivered" ""
          [⟨1, "whatsapp:+15551234567", "order_confirmation", [], "", "", "sent", "", "wamid.X", 0, 0⟩])).map
        (fun r => r.updatedAt) = [2]
    ∧ (applyStatusEvent 1 "wamid.X" "delivered" ""
        [⟨1, "whatsapp:+15551234567", "order_confirmation", [], "", "", "sent", "", "wamid.X", 0, 0⟩]).map
        (fun r => r.updatedAt) = [1] := by
  exact ⟨by decide, rfl, rfl⟩

/-- C8 (amended): reconciliation is idempotent up to the updated_at
timestamp: pushing the same (externalId, status, errorMessage) event
through the webhook update path twice, at instants t1 and then t2, yields
exactly the table obtained by pushing it once at t2 — the duplicate
changes nothing except rewriting updated_at to the later instant (and at
equal instants applying twice equals applying once exactly). -/
theorem applyStatusEvent_duplicate_absorbed (t1 t2 : Nat) (e s em : String)
    (db : List MessageRec) :
    applyStatusEvent t2 e s em (applyStatusEvent t1 e s em db)
      = applyStatusEvent t2 e s em db := by
  by_cases he : e = ""
  · simp [applyStatusEvent, webhookUpdateMessageStatus, he]
  · cases hfind : getMessageByExternalID db e with
    | none => simp [applyStatusEvent, webhookUpdateMessageStatus, he, hfind]
    | some msg =>
      have h1 : applyStatusEvent t1 e s em db = updateMessageStatus db t1 msg.id s em e := by
        simp [applyStatusEvent, webhookUpdateMessageStatus, he, hfind]
      have h3 : applyStatusEvent t2 e s em db = updateMessageStatus db t2 msg.id s em e := by
        simp [applyStatusEvent, webhookUpdateMessageStatus, he, hfind]
      obtain ⟨msg2, hfind2, hid2, _, _, _⟩ := find?_ext_update db t1 e s em he msg hfind
      have h2 : applyStatusEvent t2 e s em (updateMessageStatus db t1 msg.id s em e)
          = updateMessageStatus (updateMessageStatus db t1 msg.id s em e) t2 msg2.id s em e := by
        simp [applyStatusEvent, webhookUpdateMessageStatus, he, getMessageByExternalID, hfind2]
      rw [h1, h2, hid2, updateMessageStatus_reissue, h3]

/-- C1 counterexample: a record already in the terminal failed status,
reconciled with a sent event through the webhook update path, ends with
status sent: the update is applied, not rejected as a no-op, so failed is
replaced by a non-failed status, contradicting the claimed guard. -/
theorem applyStatusEvent_overwrites_failed :
    (applyStatusEvent 1 "wamid.X" "sent" ""
        [⟨1, "whatsapp:+15551234567", "order_confirmation", [], "", "", "failed", "provider error", "wamid.X", 0, 0⟩]).map
      (fun r => r.status) = ["sent"] := by
  rfl

/-- C1 (amended): the UpdateMessageStatus path enforces no ordering guard:
every call carrying a non-empty external id that finds a record is applied
unconditionally, so the record's status afterwards equals the status
argument of that call — for every target status, including targets whose
order is at or below the current one and records currently failed; the
final status after a sequence of such calls is simply the last call's
status. -/
theorem applyStatus_unconditional (db : List MessageRec) (now : Nat)
    (e s em : String) (msg : MessageRec) (he : e ≠ "")
    (hfind : getMessageByExternalID db e = some msg) :
    ∃ db2, webhookUpdateMessageStatus db now e s em = Except.ok db2
      ∧ ∃ msg2, getMessageByExternalID db2 e = some msg2
          ∧ msg2.id = msg.id ∧ msg2.status = s ∧ msg2.updatedAt = now := by
  refine ⟨updateMessageStatus db now msg.id s em e, ?_, ?_⟩
  · simp [webhookUpdateMessageStatus, he, hfind]
  · obtain ⟨msg2, h2, hid, hs, _, hup⟩ := find?_ext_update db now e s em he msg hfind
    exact ⟨msg2, h2, hid, hs, hup⟩

/-- Witness for the amended C1 theorem at a concrete regression: a record
already delivered accepts a sent update. -/
theorem applyStatus_unconditional_witness :
    ∃ db2, webhookUpdateMessageStatus
        [⟨1, "whatsapp:+15551234567", "order_confirmation", [], "", "", "delivered", "", "wamid.X", 0, 0⟩]
        2 "wamid.X" "sent" "" = Except.ok db2
      ∧ ∃ msg2, getMessageByExternalID db2 "wamid.X" = some msg2
          ∧ msg2.id = 1 ∧ msg2.status = "sent" ∧ msg2.updatedAt = 2 :=
  applyStatus_unconditional
    [⟨1, "whatsapp:+15551234567", "order_confirmation", [], "", "", "delivered", "", "wamid.X", 0, 0⟩]
    2 "wamid.X" "sent" ""
    ⟨1, "whatsapp:+15551234567", "order_confirmation", [], "", "", "delivered", "", "wamid.X", 0, 0⟩
    (by decide) (by rfl)

/-- C3 counterexample: a record whose externalId is already set to E1 has
it overwritten by a repository UpdateMessageStatus call carrying the
different non-empty externalId E2, contradicting the claimed
assigned-at-most-once invariant. -/
theorem updateMessageStatus_clobbers_externalId :
    (updateMessageStatus
        [⟨1, "whatsapp:+15551234567", "order_confirmation", [], "", "", "sent", "", "E1", 0, 0⟩]
        1 1 "delivered" "" "E2").map (fun r => r.externalId) = ["E2"] := by
  rfl

/-- C3 (amended): a status-update call whose externalId argument is empty
never changes any stored externalId, and the webhook reconciliation path —
which writes back exactly the externalId it used for the lookup — never
changes any stored externalId when row ids are unique; but a repository
update carrying a different non-empty externalId does overwrite the stored
value (see the counterexample). -/
theorem externalId_preservation :
    (∀ (db : List MessageRec) (now i : Nat) (s em : String),
        (updateMessageStatus db now i s em "").map (fun r => r.externalId)
          = db.map (fun r => r.externalId))
    ∧ (∀ (db : List MessageRec) (now : Nat) (e s em : String) (db2 : List MessageRec),
        (db.map (fun r => r.id)).Nodup →
        webhookUpdateMessageStatus db now e s em = Except.ok db2 →
        db2.map (fun r => r.externalId) = db.map (fun r => r.externalId)) := by
  constructor
  · intro db now i s em
    simp only [updateMessageStatus, List.map_map]
    apply List.map_congr_left
    intro r _
    by_cases hid : r.id = i <;> simp [hid, applyAssigns_eq]
  · intro db now e s em db2 hnodup hok
    by_cases he : e = ""
    · simp [webhookUpdateMessageStatus, he] at hok
    · cases hfind : getMessageByExternalID db e with
      | none => simp [webhookUpdateMessageStatus, he, hfind] at hok
      | some msg =>
        have hdb2 : db2 = updateMessageStatus db now msg.id s em e := by
          simp [webhookUpdateMessageStatus, he, hfind] at hok
          exact hok.symm
        have hfind' : db.find? (fun r => r.externalId = e) = some msg := hfind
        have hmsgext : msg.externalId = e := by
          have := List.find?_some hfind'
          simpa using this
        have hmem : msg ∈ db := List.mem_of_find?_eq_some hfind'
        subst hdb2
        simp only [updateMessageStatus, List.map_map]
        apply List.map_congr_left
        intro r hr
        by_cases hid : r.id = msg.id
        · have hrmsg : r = msg := List.inj_on_of_nodup_map hnodup hr hmem hid
          subst hrmsg
          simp [applyAssigns_eq, he, hmsgext]
        · simp [hid]

/-- Witness for the amended C3 theorem: an empty-externalId update and a
webhook-path update, both leaving the stored externalId column untouched on
a concrete one-row table. -/
theorem externalId_preservation_witness :
    ((updateMessageStatus
        [⟨1, "whatsapp:+15551234567", "order_confirmation", [], "", "", "sent", "", "wamid.X", 0, 0⟩]
        3 1 "failed" "boom" "").map (fun r => r.externalId)
      = ([⟨1, "whatsapp:+15551234567", "order_confirmation", [], "", "", "sent", "", "wamid.X", 0, 0⟩] : List MessageRec).map (fun r => r.externalId))
    ∧ ((updateMessageStatus
        [⟨1, "whatsapp:+15551234567", "order_confirmation", [], "", "", "sent", "", "wamid.X", 0, 0⟩]
        2 1 "delivered" "" "wamid.X").map (fun r => r.externalId)
      = ([⟨1, "whatsapp:+15551234567", "order_confirmation", [], "", "", "sent", "", "wamid.X", 0, 0⟩] : List MessageRec).map (fun r => r.externalId)) :=
  ⟨externalId_preservation.1
      [⟨1, "whatsapp:+15551234567", "order_confirmation", [], "", "", "sent", "", "wamid.X", 0, 0⟩]
      3 1 "failed" "boom",
   externalId_preservation.2
      [⟨1, "whatsapp:+15551234567", "order_confirmation", [], "", "", "sent", "", "wamid.X", 0, 0⟩]
      2 "wamid.X" "delivered" ""
      (updateMessageStatus
        [⟨1, "whatsapp:+15551234567", "order_confirmation", [], "", "", "sent", "", "wamid.X", 0, 0⟩]
        2 1 "delivered" "" "wamid.X")
      (by decide) (by rfl)⟩

/-- C2 counterexample: the provider token undelivered is mapped to unknown,
not to failed, and an event with an unmapped token is not dropped:
ProcessWebhook still produces it onto the reconciliation queue and applies
the status unknown — outside the canonical vocabulary — to the matching
record. -/
theorem mapMetaStatus_undelivered_not_dropped :
    mapMetaStatus "undelivered" = "unknown"
    ∧ processWebhook (fun _ => true) 1
        ⟨[⟨1, "whatsapp:+15551234567", "order_confirmation", [], "", "", "delivered", "", "wamid.X", 0, 0⟩], []⟩
        "sha256=abc" (some ⟨"whatsapp_business_account",
          [⟨"entry1", [⟨⟨"whatsapp", [⟨"wamid.X", "15551234567", "undelivered", "0", []⟩]⟩⟩]⟩]⟩)
      = Except.ok ⟨[⟨1, "whatsapp:+15551234567", "order_confirmation", [], "", "", "unknown", "", "wamid.X", 0, 1⟩],
          [⟨"wamid.X", "unknown", "", "", "15551234567"⟩]⟩ := by
  exact ⟨rfl, rfl⟩

/-- C2 (amended): the mapping is sent→sent, delivered→delivered, read→read,
failed→failed, and every other token (undelivered included) → unknown; an
event whose token is unmapped is not dropped: it is produced onto the
queue and the status unknown is applied to the record matching its
external id. -/
theorem mapMetaStatus_behavior (s : String) (now : Nat) (st : WebhookState)
    (entry : MetaStatusEntry) :
    (mapMetaStatus "sent" = "sent" ∧ mapMetaStatus "delivered" = "delivered"
      ∧ mapMetaStatus "read" = "read" ∧ mapMetaStatus "failed" = "failed")
    ∧ (s ≠ "sent" → s ≠ "delivered" → s ≠ "read" → s ≠ "failed" →
        mapMetaStatus s = "unknown")
    ∧ (entry.status ≠ "sent" → entry.status ≠ "delivered" →
        entry.status ≠ "read" → entry.status ≠ "failed" → entry.id ≠ "" →
        ∀ msg, getMessageByExternalID st.db entry.id = some msg →
        ∃ msg2,
          getMessageByExternalID (processStatusEntry (fun _ => true) now st entry).db entry.id
              = some msg2
          ∧ msg2.status = "unknown"
          ∧ (processStatusEntry (fun _ => true) now st entry).produced
              = st.produced ++ [⟨entry.id, "unknown", "",
                  (match entry.errors with | [] => "" | e :: _ => e.message),
                  entry.recipientId⟩]) := by
  refine ⟨⟨rfl, rfl, rfl, rfl⟩, ?_, ?_⟩
  · intro h1 h2 h3 h4
    simp [mapMetaStatus, h1, h2, h3, h4]
  · intro h1 h2 h3 h4 hid msg hfind
    have hmap : mapMetaStatus entry.status = "unknown" := by
      simp [mapMetaStatus, h1, h2, h3, h4]
    have hupd : webhookUpdateMessageStatus st.db now entry.id "unknown"
        (match entry.errors with | [] => "" | e :: _ => e.message)
          = Except.ok (updateMessageStatus st.db now msg.id "unknown"
              (match entry.errors with | [] => "" | e :: _ => e.message) entry.id) := by
      simp [webhookUpdateMessageStatus, hid, hfind]
    obtain ⟨msg2, hfind2, _, hs2, _, _⟩ :=
      find?_ext_update st.db now entry.id "unknown"
        (match entry.errors with | [] => "" | e :: _ => e.message) hid msg hfind
    refine ⟨msg2, ?_, hs2, ?_⟩
    · simp only [processStatusEntry, hmap]
      simp [hupd]
      exact hfind2
    · simp only [processStatusEntry, hmap]
      simp [hupd]

/-- Witness for the amended C2 theorem at the concrete token undelivered. -/
theorem mapMetaStatus_behavior_witness :
    ∃ msg2,
      getMessageByExternalID
          (processStatusEntry (fun _ => true) 1
            ⟨[⟨1, "whatsapp:+15551234567", "order_confirmation", [], "", "", "delivered", "", "wamid.X", 0, 0⟩], []⟩
            ⟨"wamid.X", "15551234567", "undelivered", "0", []⟩).db "wamid.X"
        = some msg2
      ∧ msg2.status = "unknown"
      ∧ (processStatusEntry (fun _ => true) 1
            ⟨[⟨1, "whatsapp:+15551234567", "order_confirmation", [], "", "", "delivered", "", "wamid.X", 0, 0⟩], []⟩
            ⟨"wamid.X", "15551234567", "undelivered", "0", []⟩).produced
          = [] ++ [⟨"wamid.X", "unknown", "", "", "15551234567"⟩] :=
  (mapMetaStatus_behavior "undelivered" 1
      ⟨[⟨1, "whatsapp:+15551234567", "order_confirmation", [], "", "", "delivered", "", "wamid.X", 0, 0⟩], []⟩
      ⟨"wamid.X", "15551234567", "undelivered", "0", []⟩).2.2
    (by decide) (by decide) (by decide) (by decide) (by decide)
    ⟨1, "whatsapp:+15551234567", "order_confirmation", [], "", "", "delivered", "", "wamid.X", 0, 0⟩
    (by rfl)

/-- C9: ProcessWebhook rejects a request for signature invalidity exactly
when the signature is the empty string, and for non-empty signatures the
signature's content has no effect at all on the processing result. -/
theorem processWebhook_signature_only_emptiness (produceOk : WebhookEvent → Bool)
    (now : Nat) (st : WebhookState) (sig : String)
    (body : Option MetaWebhookPayload) :
    ((processWebhook produceOk now st sig body
        = Except.error "missing webhook signature") ↔ sig = "")
    ∧ (∀ sig2, sig ≠ "" → sig2 ≠ "" →
        processWebhook produceOk now st sig body
          = processWebhook produceOk now st sig2 body) := by
  constructor
  · constructor
    · intro h
      by_contra hs
      simp only [processWebhook, if_neg hs] at h
      cases body with
      | none => simp at h
      | some payload =>
        by_cases hobj : payload.object ≠ "whatsapp_business_account"
        · simp [hobj] at h
        · simp [hobj] at h
    · intro h
      simp [processWebhook, h]
  · intro sig2 h1 h2
    simp [processWebhook, h1, h2]

/-- Witness for the C9 theorem: two different non-empty signatures give the
same processing result on the same body. -/
theorem processWebhook_signature_witness :
    processWebhook (fun _ => true) 0 ⟨[], []⟩ "sha256=first" none
      = processWebhook (fun _ => true) 0 ⟨[], []⟩ "sha256=second" none :=
  (processWebhook_signature_only_emptiness (fun _ => true) 0 ⟨[], []⟩
      "sha256=first" none).2 "sha256=second" (by decide) (by decide)

/-- Appending the broker error to the fixed text always yields a non-empty
error message. -/
theorem queueFailureMessage_ne_empty (s : String) :
    ("Failed to queue message: " ++ s) ≠ "" := by
  intro h
  have hlen := congrArg String.length h
  rw [String.length_append] at hlen
  have h25 : ("Failed to queue message: ").length = 25 := by decide
  rw [h25] at hlen
  simp at hlen

/-- C4: when the record is persisted but the enqueue fails, the persisted
record is transitioned to failed with a non-empty errorMessage carrying the
enqueue error, the record is not deleted (the table grows by exactly the
one new row), and the enqueue error itself is returned to the caller. -/
theorem sendTemplateMessage_enqueueFailure (oracle : SendOracle) (now : Nat)
    (st : MsgServiceState) (phone tid : String) (params : Params)
    (oid cid err : String)
    (hm : oracle.marshalOk (submissionSnapshot st phone tid params oid cid) = true)
    (hp : oracle.produceErr (submissionSnapshot st phone tid params oid cid) = some err)
    (hfresh : getMessageByID st.repo.rows st.repo.nextId = none) :
    (sendTemplateMessage oracle now st phone tid params oid cid).2 = Except.error err
    ∧ (sendTemplateMessage oracle now st phone tid params oid cid).1.repo.rows.length
        = st.repo.rows.length + 1
    ∧ ∃ r, getMessageByID
            (sendTemplateMessage oracle now st phone tid params oid cid).1.repo.rows
            st.repo.nextId = some r
        ∧ r.status = "failed"
        ∧ r.errorMessage = "Failed to queue message: " ++ err
        ∧ r.errorMessage ≠ "" := by
  simp only [submissionSnapshot] at hm hp
  simp only [sendTemplateMessage, createMessage, hm, hp, if_true]
  refine ⟨by trivial, ?_, ?_⟩
  · simp [updateMessageStatus]
  · rw [getMessageByID_update]
    have happ : getMessageByID
        (st.repo.rows ++ [{ (⟨0, (if hasWhatsAppMarker phone then phone else "whatsapp:" ++ phone),
            tid, params, oid, cid, "queued", "", "", now, now⟩ : MessageRec) with id := st.repo.nextId }])
        st.repo.nextId
        = some { (⟨0, (if hasWhatsAppMarker phone then phone else "whatsapp:" ++ phone),
            tid, params, oid, cid, "queued", "", "", now, now⟩ : MessageRec) with id := st.repo.nextId } := by
      simp only [getMessageByID, List.find?_append] at hfresh ⊢
      rw [hfresh]
      simp [List.find?]
    rw [happ]
    refine ⟨_, rfl, ?_, ?_, ?_⟩
    · simp [queueFailureMessage_ne_empty]
    · simp [queueFailureMessage_ne_empty]
    · simp [queueFailureMessage_ne_empty]

/-- Witness for the C4 theorem: a concrete submission against an empty
table with a broker that rejects the enqueue. -/
theorem sendTemplateMessage_enqueueFailure_witness :
    (sendTemplateMessage ⟨fun _ => true, fun _ => some "broker unavailable"⟩ 0
        ⟨⟨[], 1⟩, []⟩ "+15551234567" "order_confirmation" [] "ORD-1" "").2
      = Except.error "broker unavailable"
    ∧ (sendTemplateMessage ⟨fun _ => true, fun _ => some "broker unavailable"⟩ 0
        ⟨⟨[], 1⟩, []⟩ "+15551234567" "order_confirmation" [] "ORD-1" "").1.repo.rows.length
      = ([] : List MessageRec).length + 1
    ∧ ∃ r, getMessageByID
            (sendTemplateMessage ⟨fun _ => true, fun _ => some "broker unavailable"⟩ 0
              ⟨⟨[], 1⟩, []⟩ "+15551234567" "order_confirmation" [] "ORD-1" "").1.repo.rows
            1 = some r
        ∧ r.status = "failed"
        ∧ r.errorMessage = "Failed to queue message: " ++ "broker unavailable"
        ∧ r.errorMessage ≠ "" :=
  sendTemplateMessage_enqueueFailure ⟨fun _ => true, fun _ => some "broker unavailable"⟩ 0
    ⟨⟨[], 1⟩, []⟩ "+15551234567" "order_confirmation" [] "ORD-1" "" "broker unavailable"
    (by rfl) (by rfl) (by rfl)

/-- C5 counterexample: the recipient abc is invalid by the repository's own
phone validator, yet SendTemplateMessage performs no validation: it
persists a queued record for whatsapp:abc and returns it with no error,
instead of failing with an invalid-address error before persisting. -/
theorem sendTemplateMessage_no_validation :
    IsValidPhoneNumber "abc" = false
    ∧ (sendTemplateMessage ⟨fun _ => true, fun _ => none⟩ 0 ⟨⟨[], 1⟩, []⟩
        "abc" "order_confirmation" [] "" "").2
        = Except.ok ⟨1, "whatsapp:abc", "order_confirmation", [], "", "", "queued", "", "", 0, 0⟩
    ∧ (sendTemplateMessage ⟨fun _ => true, fun _ => none⟩ 0 ⟨⟨[], 1⟩, []⟩
        "abc" "order_confirmation" [] "" "").1.repo.rows
        = [⟨1, "whatsapp:abc", "order_confirmation", [], "", "", "queued", "", "", 0, 0⟩] := by
  exact ⟨rfl, rfl, rfl⟩

/-- C5 (amended): the only recipient normalization SendTemplateMessage
performs is prepending the whatsapp scheme marker when absent — a pure
computation that never fails — and every recipient, valid or not, is
persisted as a queued record and returned without error (with the producer
accepting the enqueue). -/
theorem sendTemplateMessage_normalization (now : Nat) (st : MsgServiceState)
    (phone tid : String) (params : Params) (oid cid : String) :
    ∃ msg1, (sendTemplateMessage ⟨fun _ => true, fun _ => none⟩ now st
        phone tid params oid cid).2 = Except.ok msg1
      ∧ msg1.phoneNumber
          = (if hasWhatsAppMarker phone then phone else "whatsapp:" ++ phone)
      ∧ msg1.status = "queued"
      ∧ (sendTemplateMessage ⟨fun _ => true, fun _ => none⟩ now st
          phone tid params oid cid).1.repo.rows = st.repo.rows ++ [msg1] := by
  refine ⟨⟨st.repo.nextId,
      (if hasWhatsAppMarker phone then phone else "whatsapp:" ++ phone),
      tid, params, oid, cid, "queued", "", "", now, now⟩, ?_, rfl, rfl, ?_⟩ <;>
    simp [sendTemplateMessage, createMessage]

/-- C10: when the record is persisted but serializing the QueueJob snapshot
fails, SendTemplateMessage returns the message still in status queued with
no error; nothing is enqueued and the record is not transitioned to failed
on this path. -/
theorem sendTemplateMessage_marshalFailure (oracle : SendOracle) (now : Nat)
    (st : MsgServiceState) (phone tid : String) (params : Params)
    (oid cid : String)
    (hm : oracle.marshalOk (submissionSnapshot st phone tid params oid cid) = false) :
    ∃ msg1, (sendTemplateMessage oracle now st phone tid params oid cid).2
        = Except.ok msg1
      ∧ msg1.status = "queued"
      ∧ (sendTemplateMessage oracle now st phone tid params oid cid).1.queued
          = st.queued
      ∧ (sendTemplateMessage oracle now st phone tid params oid cid).1.repo.rows
          = st.repo.rows ++ [msg1] := by
  simp only [submissionSnapshot] at hm
  simp only [sendTemplateMessage, createMessage, hm]
  exact ⟨_, rfl, rfl, rfl, rfl⟩

/-- Witness for the C10 theorem: a concrete submission whose snapshot the
serializer rejects. -/
theorem sendTemplateMessage_marshalFailure_witness :
    ∃ msg1, (sendTemplateMessage ⟨fun _ => false, fun _ => none⟩ 0
        ⟨⟨[], 1⟩, []⟩ "+15551234567" "order_confirmation" [] "" "").2
        = Except.ok msg1
      ∧ msg1.status = "queued"
      ∧ (sendTemplateMessage ⟨fun _ => false, fun _ => none⟩ 0
          ⟨⟨[], 1⟩, []⟩ "+15551234567" "order_confirmation" [] "" "").1.queued
          = ([] : List QueueMessage)
      ∧ (sendTemplateMessage ⟨fun _ => false, fun _ => none⟩ 0
          ⟨⟨[], 1⟩, []⟩ "+15551234567" "order_confirmation" [] "" "").1.repo.rows
          = ([] : List MessageRec) ++ [msg1] :=
  sendTemplateMessage_marshalFailure ⟨fun _ => false, fun _ => none⟩ 0
    ⟨⟨[], 1⟩, []⟩ "+15551234567" "order_confirmation" [] "" "" (by rfl)

/-- C7: ProcessQueueMessage reloads the authoritative record by the
snapshot's message id and invokes the gateway with the reloaded record's
recipient, template id and parameters — the snapshot's other fields are
irrelevant (two snapshots with the same message id process identically) —
and, on gateway success, the record passes through processing and ends
sent with the provider-assigned identifier stored as its externalId, with
no error handed back to the consumer loop. -/
theorem processQueueMessage_reload (gateway : Gateway) (now1 now2 : Nat)
    (db : List MessageRec) (qm : QueueMessage) (msg : MessageRec) (sid : String)
    (hfind : getMessageByID db qm.messageId = some msg)
    (hq : msg.status = "queued")
    (hgw : gateway msg.phoneNumber msg.templateId msg.parameters = Except.ok sid)
    (hsid : sid ≠ "") :
    (∀ qm2 : QueueMessage, qm2.messageId = qm.messageId →
        processQueueMessage gateway now1 now2 db (some qm2)
          = processQueueMessage gateway now1 now2 db (some qm))
    ∧ getMessageByID (updateMessageStatus db now1 msg.id "processing" "" "") msg.id
        = some { msg with status := "processing", updatedAt := now1 }
    ∧ (processQueueMessage gateway now1 now2 db (some qm)).2 = none
    ∧ getMessageByID (processQueueMessage gateway now1 now2 db (some qm)).1 msg.id
        = some { msg with status := "sent", externalId := sid, updatedAt := now2 } := by
  have hid : msg.id = qm.messageId := by
    have hfind' : db.find? (fun r => r.id = qm.messageId) = some msg := hfind
    simpa using List.find?_some hfind'
  have hself : getMessageByID db msg.id = some msg := by
    rw [hid]; exact hfind
  refine ⟨?_, ?_, ?_, ?_⟩
  · intro qm2 h2
    simp [processQueueMessage, h2]
  · rw [getMessageByID_update, hself]
    simp
  · simp [processQueueMessage, hfind, sendMessage, hgw]
  · simp only [processQueueMessage, hfind, sendMessage, hgw]
    rw [getMessageByID_update, getMessageByID_update, hself]
    simp [hsid]

/-- Witness for the C7 theorem: a queued record delivered through a gateway
returning the identifier wamid.X, driven from a snapshot whose recipient
and template fields are stale. -/
theorem processQueueMessage_reload_witness :
    (∀ qm2 : QueueMessage, qm2.messageId = (⟨1, "stale-phone", "stale-template", [], "", ""⟩ : QueueMessage).messageId →
        processQueueMessage (fun _ _ _ => Except.ok "wamid.X") 1 2
            [⟨1, "whatsapp:+15551234567", "order_confirmation", [], "", "", "queued", "", "", 0, 0⟩]
            (some qm2)
          = processQueueMessage (fun _ _ _ => Except.ok "wamid.X") 1 2
            [⟨1, "whatsapp:+15551234567", "order_confirmation", [], "", "", "queued", "", "", 0, 0⟩]
            (some ⟨1, "stale-phone", "stale-template", [], "", ""⟩))
    ∧ getMessageByID
        (updateMessageStatus
          [⟨1, "whatsapp:+15551234567", "order_confirmation", [], "", "", "queued", "", "", 0, 0⟩]
          1 1 "processing" "" "") 1
        = some ⟨1, "whatsapp:+15551234567", "order_confirmation", [], "", "", "processing", "", "", 0, 1⟩
    ∧ (processQueueMessage (fun _ _ _ => Except.ok "wamid.X") 1 2
        [⟨1, "whatsapp:+15551234567", "order_confirmation", [], "", "", "queued", "", "", 0, 0⟩]
        (some ⟨1, "stale-phone", "stale-template", [], "", ""⟩)).2 = none
    ∧ getMessageByID
        (processQueueMessage (fun _ _ _ => Except.ok "wamid.X") 1 2
          [⟨1, "whatsapp:+15551234567", "order_confirmation", [], "", "", "queued", "", "", 0, 0⟩]
          (some ⟨1, "stale-phone", "stale-template", [], "", ""⟩)).1 1
        = some ⟨1, "whatsapp:+15551234567", "order_confirmation", [], "", "", "sent", "", "wamid.X", 0, 2⟩ :=
  processQueueMessage_reload (fun _ _ _ => Except.ok "wamid.X") 1 2
    [⟨1, "whatsapp:+15551234567", "order_confirmation", [], "", "", "queued", "", "", 0, 0⟩]
    ⟨1, "stale-phone", "stale-template", [], "", ""⟩
    ⟨1, "whatsapp:+15551234567", "order_confirmation", [], "", "", "queued", "", "", 0, 0⟩
    "wamid.X" (by rfl) (by rfl) (by rfl) (by decide)

end WhatsApp
